import Mathlib

/-!
Verification of the Entity Novelty Classifier in `src/main.py`.

The program reads a tabular spend dataset, parses the `Date` column
(`pd.to_datetime(..., errors='coerce')` followed by `dropna`), splits rows
into `before_df` (`Date <= cutoff`) and `after_df` (`Date > cutoff`),
computes set differences of composite keys between the two partitions,
annotates each recent row with three New/Existing statuses, keeps rows with
at least one "New" status, and deduplicates on the combination
`(Channel, Campaign (Short), Ad Set, Ad)` keeping the first occurrence.

The embedding below models rows as records whose `Date` field is an
`Option Timestamp` (`none` = the value `pd.to_datetime` could not parse,
i.e. `NaT`).  A `Timestamp` carries a day number and a time-of-day in
seconds, ordered lexicographically, matching pandas timestamp comparison;
the cutoff produced by `pd.to_datetime(report_end_date)` is the cutoff day
at midnight.  Costs are modelled as integers (their values never influence
classification).  DataFrames are lists of rows; python `set`s are modelled
by list membership (the code only ever tests membership in them).
-/

namespace NoveltyClassifier

/-- A pandas timestamp: a day number and a time-of-day (seconds past
midnight), compared lexicographically as pandas compares timestamps. -/
structure Timestamp where
  day : Int
  sec : Nat
  deriving DecidableEq, Repr

/-- Timestamp comparison `a <= b`, as pandas compares `datetime64` values:
lexicographic on (day, time-of-day). -/
def Timestamp.leB (a b : Timestamp) : Bool :=
  decide (a.day < b.day ∨ (a.day = b.day ∧ a.sec ≤ b.sec))

/-- One row of the uploaded dataset after the `Date` column has been run
through `pd.to_datetime(..., errors='coerce')`: `date = none` models `NaT`
(an unparseable date value).  Field names follow the input columns. -/
structure Record where
  date : Option Timestamp
  channel : String
  mediaSource : String
  campaignName : String
  campaignNameShort : String
  adSet : String
  adNameShort : String
  cost : Int
  deriving DecidableEq, Repr

/-- `df = df.dropna(subset=['Date'])` (line 62): drop rows whose date did
not parse. -/
def dropnaDate (df : List Record) : List Record :=
  df.filter (fun r => r.date.isSome)

/-- `pd.to_datetime(report_end_date)`: the cutoff day at midnight (the date
picker yields a date with no time component). -/
def cutoffTs (cutoff : Int) : Timestamp := ⟨cutoff, 0⟩

/-- Date test of `before_df` (line 65): `df['Date'] <= pd.to_datetime(report_end_date)`
on a row whose date parsed. -/
def isBefore (cutoff : Int) (r : Record) : Bool :=
  match r.date with
  | none => false
  | some ts => ts.leB (cutoffTs cutoff)

/-- `before_df = df[df['Date'] <= pd.to_datetime(report_end_date)]` (line 65),
applied after the `dropna` of line 62. -/
def beforeDf (df : List Record) (cutoff : Int) : List Record :=
  (dropnaDate df).filter (isBefore cutoff)

/-- Date test of `after_df` (line 66): `df['Date'] > pd.to_datetime(report_end_date)`. -/
def isAfter (cutoff : Int) (r : Record) : Bool :=
  match r.date with
  | none => false
  | some ts => !ts.leB (cutoffTs cutoff)

/-- `after_df = df[df['Date'] > pd.to_datetime(report_end_date)]` (line 66). -/
def afterDf (df : List Record) (cutoff : Int) : List Record :=
  (dropnaDate df).filter (isAfter cutoff)

/-- The campaign composite key `x['Channel'] + "_" + x['Campaign Name (Short)']`
(lines 69, 74, 88). -/
def campaignKey (r : Record) : String :=
  r.channel ++ "_" ++ r.campaignNameShort

/-- `set(df['Channel'] + "_" + df['Campaign Name (Short)'])` for a partition
(lines 69 and 74); modelled as the list of keys, membership giving the set. -/
def campaignKeys (df : List Record) : List String :=
  df.map campaignKey

/-- `set(df['Ad Set'].unique())` (lines 70 and 75). -/
def adSetKeys (df : List Record) : List String :=
  df.map (fun r => r.adSet)

/-- `set(df['Ad Name (Short)'].unique())` (lines 71 and 76). -/
def adKeys (df : List Record) : List String :=
  df.map (fun r => r.adNameShort)

/-- `new_campaigns = after_campaigns - existing_campaigns` (line 79). -/
def newCampaigns (df : List Record) (cutoff : Int) : List String :=
  (campaignKeys (afterDf df cutoff)).filter
    (fun k => !(campaignKeys (beforeDf df cutoff)).contains k)

/-- `new_adsets = after_adsets - existing_adsets` (line 80). -/
def newAdsets (df : List Record) (cutoff : Int) : List String :=
  (adSetKeys (afterDf df cutoff)).filter
    (fun k => !(adSetKeys (beforeDf df cutoff)).contains k)

/-- `new_ads = after_ads - existing_ads` (line 81). -/
def newAds (df : List Record) (cutoff : Int) : List String :=
  (adKeys (afterDf df cutoff)).filter
    (fun k => !(adKeys (beforeDf df cutoff)).contains k)

/-- A row of `final_df` after column selection, status annotation and the
renaming/reordering of lines 84-114: Media Source, Channel, Campaign Status,
Campaign (Short), Ad Set Status, Ad Set, Ad Status, Ad, Cost (USD). -/
structure OutRow where
  mediaSource : String
  channel : String
  campaignStatus : String
  campaignShort : String
  adSetStatus : String
  adSet : String
  adStatus : String
  ad : String
  cost : Int
  deriving DecidableEq, Repr

/-- The status annotation of lines 87-96 applied to one row of `after_df`:
`"New" if key in new_set else "Existing"`, independently for the three key
types, together with the column selection of line 84. -/
def mkDisplayRow (newC newAS newA : List String) (r : Record) : OutRow :=
  { mediaSource := r.mediaSource
    channel := r.channel
    campaignStatus := if newC.contains (campaignKey r) then "New" else "Existing"
    campaignShort := r.campaignNameShort
    adSetStatus := if newAS.contains r.adSet then "New" else "Existing"
    adSet := r.adSet
    adStatus := if newA.contains r.adNameShort then "New" else "Existing"
    ad := r.adNameShort
    cost := r.cost }

/-- `display_df` with its three status columns (lines 84-96). -/
def displayRows (df : List Record) (cutoff : Int) : List OutRow :=
  (afterDf df cutoff).map
    (mkDisplayRow (newCampaigns df cutoff) (newAdsets df cutoff) (newAds df cutoff))

/-- The filter of lines 99-101: keep a row iff at least one status is "New". -/
def hasNew (o : OutRow) : Bool :=
  o.campaignStatus == "New" || o.adSetStatus == "New" || o.adStatus == "New"

/-- The deduplication key of line 117:
`subset=['Channel', 'Campaign (Short)', 'Ad Set', 'Ad']`. -/
def dedupKey (o : OutRow) : String × String × String × String :=
  (o.channel, o.campaignShort, o.adSet, o.ad)

/-- Helper for `drop_duplicates`: walk the list keeping a row iff its
deduplication key has not been seen before. -/
def dropDupAux (seen : List (String × String × String × String)) :
    List OutRow → List OutRow
  | [] => []
  | o :: os =>
    if seen.contains (dedupKey o) then dropDupAux seen os
    else o :: dropDupAux (dedupKey o :: seen) os

/-- `final_df.drop_duplicates(subset=['Channel', 'Campaign (Short)', 'Ad Set', 'Ad'])`
(line 117); pandas keeps the first occurrence by default. -/
def dropDuplicates (l : List OutRow) : List OutRow :=
  dropDupAux [] l

/-- The whole classification pipeline of lines 56-117 (after the schema
check): partition, novelty sets, annotation, at-least-one-New filter,
deduplication. -/
def classify (df : List Record) (cutoff : Int) : List OutRow :=
  dropDuplicates ((displayRows df cutoff).filter hasNew)

/-- `required_columns` (line 52). -/
def requiredColumns : List String :=
  ["Date", "Channel", "Media Source", "Campaign Name", "Campaign Name (Short)",
   "Ad Set", "Ad Name (Short)", "Cost (USD)"]

/-- The uploaded table: its header columns and its rows. -/
structure Table where
  columns : List String
  rows : List Record
  deriving Repr

/-- Outcome of one invocation of the processing branch (lines 51-117):
either the schema error of line 54 carrying the column names printed in the
message, or the classified output table together with the number of
`st.warning` calls made (lines 60-61 issue one warning iff at least one
date failed to parse, however many rows were affected). -/
inductive ProcessResult where
  | schemaError (reportedColumns : List String)
  | ok (warningCount : Nat) (out : List OutRow)
  deriving DecidableEq, Repr

/-- Lines 51-117: check required columns; on failure report the error of
line 54 (whose message joins `required_columns`) and stop; otherwise warn
once if any date is unparseable, drop those rows, and classify. -/
def processFile (t : Table) (cutoff : Int) : ProcessResult :=
  if requiredColumns.all (fun c => t.columns.contains c) then
    .ok (if t.rows.any (fun r => r.date.isNone) then 1 else 0)
      (classify t.rows cutoff)
  else
    .schemaError requiredColumns

/-! ### Helper lemmas about deduplication -/

/-- `List.contains` agrees with membership for types with a lawful `BEq`. -/
theorem contains_iff_memL {α : Type} [BEq α] [LawfulBEq α] {l : List α} {a : α} :
    l.contains a = true ↔ a ∈ l := by
  simp [List.contains_eq_any_beq, List.any_eq_true]

/-- `dropDupAux` returns a sublist of its input. -/
theorem dropDupAux_sublist (seen : List (String × String × String × String)) :
    ∀ l : List OutRow, List.Sublist (dropDupAux seen l) l := by
  intro l
  induction l generalizing seen with
  | nil => simp [dropDupAux]
  | cons a as ih =>
    simp only [dropDupAux]
    split
    · exact (ih seen).cons a
    · exact (ih _).cons₂ a

/-- Every row kept by `dropDupAux` has a key outside `seen`, and is the
first row of the input carrying its key. -/
theorem dropDupAux_spec (seen : List (String × String × String × String)) :
    ∀ l : List OutRow, ∀ o ∈ dropDupAux seen l,
      dedupKey o ∉ seen ∧
      l.find? (fun x => dedupKey x == dedupKey o) = some o := by
  intro l
  induction l generalizing seen with
  | nil => intro o ho; simp [dropDupAux] at ho
  | cons a as ih =>
    intro o ho
    simp only [dropDupAux] at ho
    split at ho
    · rename_i hseen
      obtain ⟨hnot, hfind⟩ := ih seen o ho
      have hne : dedupKey a ≠ dedupKey o := by
        intro he
        exact hnot (he ▸ (contains_iff_memL.mp hseen))
      refine ⟨hnot, ?_⟩
      rw [List.find?_cons_of_neg, hfind]
      simpa using hne
    · rename_i hseen
      have hseen' : dedupKey a ∉ seen := by
        intro hmem
        exact hseen (contains_iff_memL.mpr hmem)
      rcases List.mem_cons.mp ho with rfl | ho'
      · exact ⟨hseen', by simp [List.find?_cons_of_pos]⟩
      · obtain ⟨hnot, hfind⟩ := ih _ o ho'
        have hne : dedupKey a ≠ dedupKey o := by
          intro he
          exact hnot (he ▸ List.mem_cons_self _ _)
        refine ⟨fun hmem => hnot (List.mem_cons_of_mem _ hmem), ?_⟩
        rw [List.find?_cons_of_neg, hfind]
        simpa using hne

/-- The rows kept by `dropDupAux` carry pairwise distinct keys. -/
theorem dropDupAux_keys_nodup (seen : List (String × String × String × String)) :
    ∀ l : List OutRow, ((dropDupAux seen l).map dedupKey).Nodup := by
  intro l
  induction l generalizing seen with
  | nil => simp [dropDupAux]
  | cons a as ih =>
    simp only [dropDupAux]
    split
    · exact ih seen
    · simp only [List.map_cons, List.nodup_cons]
      refine ⟨?_, ih _⟩
      intro hmem
      obtain ⟨o, ho, hk⟩ := List.mem_map.mp hmem
      exact (dropDupAux_spec _ as o ho).1 (hk ▸ List.mem_cons_self _ _)

/-- Every key of the input survives into the output of `dropDupAux`,
provided it is not already in `seen`. -/
theorem dropDupAux_complete (seen : List (String × String × String × String)) :
    ∀ l : List OutRow, ∀ o ∈ l, dedupKey o ∉ seen →
      ∃ o' ∈ dropDupAux seen l, dedupKey o' = dedupKey o := by
  intro l
  induction l generalizing seen with
  | nil => intro o ho; simp at ho
  | cons a as ih =>
    intro o ho hs
    simp only [dropDupAux]
    split
    · rename_i hseen
      rcases List.mem_cons.mp ho with rfl | ho'
      · exact absurd (contains_iff_memL.mp hseen) hs
      · exact ih seen o ho' hs
    · rename_i hseen
      by_cases hk : dedupKey o = dedupKey a
      · exact ⟨a, List.mem_cons_self _ _, hk.symm⟩
      · rcases List.mem_cons.mp ho with rfl | ho'
        · exact absurd rfl hk
        · obtain ⟨o', h1, h2⟩ := ih (dedupKey a :: seen) o ho'
            (by simp [hs, fun h => hk h])
          exact ⟨o', List.mem_cons_of_mem _ h1, h2⟩

/-- Membership form of `dropDupAux_sublist`. -/
theorem mem_of_mem_dropDuplicates {l : List OutRow} {o : OutRow}
    (h : o ∈ dropDuplicates l) : o ∈ l :=
  (dropDupAux_sublist [] l).subset h

/-! ### Sample data used by the witnesses -/

/-- A record spending on day 0 (historical for cutoff 3). -/
def rHist : Record := ⟨some ⟨0, 0⟩, "FB", "src", "Camp One", "C1", "AS1", "A1", 10⟩

/-- A record spending on day 5 (recent for cutoff 3) with fresh keys. -/
def rNew : Record := ⟨some ⟨5, 0⟩, "FB", "src", "Camp Two", "C2", "AS2", "A2", 20⟩

/-- A two-row sample dataset. -/
def sampleDf : List Record := [rHist, rNew]

/-- The single output row `classify sampleDf 3` produces. -/
def sampleOut : OutRow :=
  ⟨"src", "FB", "New", "C2", "New", "AS2", "New", "A2", 20⟩

/-! ### Claims -/

/-- C1: for every dataset and cutoff and each key type, the novelty set is
exactly the set difference keys(recent) - keys(historical): a key is new iff
it appears in the recent partition and never in the historical one; hence
each novelty set is a subset of the recent keys and disjoint from the
historical keys. -/
theorem novelty_sets_are_set_difference (df : List Record) (cutoff : Int) (k : String) :
    ((k ∈ newCampaigns df cutoff ↔
        k ∈ campaignKeys (afterDf df cutoff) ∧ k ∉ campaignKeys (beforeDf df cutoff)) ∧
     (k ∈ newAdsets df cutoff ↔
        k ∈ adSetKeys (afterDf df cutoff) ∧ k ∉ adSetKeys (beforeDf df cutoff)) ∧
     (k ∈ newAds df cutoff ↔
        k ∈ adKeys (afterDf df cutoff) ∧ k ∉ adKeys (beforeDf df cutoff))) ∧
    (newCampaigns df cutoff ⊆ campaignKeys (afterDf df cutoff) ∧
     newAdsets df cutoff ⊆ adSetKeys (afterDf df cutoff) ∧
     newAds df cutoff ⊆ adKeys (afterDf df cutoff)) ∧
    (List.Disjoint (newCampaigns df cutoff) (campaignKeys (beforeDf df cutoff)) ∧
     List.Disjoint (newAdsets df cutoff) (adSetKeys (beforeDf df cutoff)) ∧
     List.Disjoint (newAds df cutoff) (adKeys (beforeDf df cutoff))) := by
  refine ⟨⟨?_, ?_, ?_⟩, ⟨?_, ?_, ?_⟩, ?_, ?_, ?_⟩
  · simp [newCampaigns, List.mem_filter]
  · simp [newAdsets, List.mem_filter]
  · simp [newAds, List.mem_filter]
  · intro k hk; simp [newCampaigns, List.mem_filter] at hk; exact hk.1
  · intro k hk; simp [newAdsets, List.mem_filter] at hk; exact hk.1
  · intro k hk; simp [newAds, List.mem_filter] at hk; exact hk.1
  · intro k hk hb; simp [newCampaigns, List.mem_filter] at hk; exact hk.2 hb
  · intro k hk hb; simp [newAdsets, List.mem_filter] at hk; exact hk.2 hb
  · intro k hk hb; simp [newAds, List.mem_filter] at hk; exact hk.2 hb

/-- Witness for C1: the set-difference characterisation instantiated at the
sample dataset, cutoff 3 and the campaign key of the recent record. -/
theorem novelty_sets_are_set_difference_witness :
    ("FB_C2" ∈ newCampaigns sampleDf 3 ↔
      "FB_C2" ∈ campaignKeys (afterDf sampleDf 3) ∧
      "FB_C2" ∉ campaignKeys (beforeDf sampleDf 3)) :=
  (novelty_sets_are_set_difference sampleDf 3 "FB_C2").1.1

/-- C2: every row of the output table has at least one of its three status
fields equal to "New"; a row whose three statuses are all "Existing" never
appears in the output. -/
theorem output_rows_have_new_status (df : List Record) (cutoff : Int) :
    (∀ o ∈ classify df cutoff,
       o.campaignStatus = "New" ∨ o.adSetStatus = "New" ∨ o.adStatus = "New") ∧
    (∀ o : OutRow, o.campaignStatus = "Existing" → o.adSetStatus = "Existing" →
       o.adStatus = "Existing" → o ∉ classify df cutoff) := by
  have h1 : ∀ o ∈ classify df cutoff,
      o.campaignStatus = "New" ∨ o.adSetStatus = "New" ∨ o.adStatus = "New" := by
    intro o ho
    have hmem := mem_of_mem_dropDuplicates ho
    have := (List.mem_filter.mp hmem).2
    simpa [hasNew, or_assoc] using this
  refine ⟨h1, ?_⟩
  intro o hc hs ha hmem
  rcases h1 o hmem with h | h | h <;> simp_all

/-- Witness for C2: the sample dataset's single output row is in the output
and carries a "New" status. -/
theorem output_rows_have_new_status_witness :
    sampleOut.campaignStatus = "New" ∨ sampleOut.adSetStatus = "New" ∨
      sampleOut.adStatus = "New" :=
  (output_rows_have_new_status sampleDf 3).1 sampleOut (by decide)

/-- C4: the output table has no two rows sharing the same
(channel, campaign_short, ad_set, ad) combination; the output is a sublist
of the retained (at-least-one-New) rows, every retained combination has a
representative, and each output row is the first retained row in input
order carrying its combination — hence the cost reported is that first
occurrence's cost and later duplicates' costs are discarded. -/
theorem output_dedup_first_wins (df : List Record) (cutoff : Int) :
    ((classify df cutoff).map dedupKey).Nodup ∧
    List.Sublist (classify df cutoff) ((displayRows df cutoff).filter hasNew) ∧
    (∀ o ∈ (displayRows df cutoff).filter hasNew,
       ∃ o' ∈ classify df cutoff, dedupKey o' = dedupKey o) ∧
    (∀ o ∈ classify df cutoff,
       ((displayRows df cutoff).filter hasNew).find?
         (fun x => dedupKey x == dedupKey o) = some o) := by
  refine ⟨dropDupAux_keys_nodup [] _, dropDupAux_sublist [] _, ?_, ?_⟩
  · intro o ho
    exact dropDupAux_complete [] _ o ho (by simp)
  · intro o ho
    exact (dropDupAux_spec [] _ o ho).2

/-- Witness for C4: on the sample dataset the output keys are nodup and the
single output row is the first retained row with its combination. -/
theorem output_dedup_first_wins_witness :
    ((classify sampleDf 3).map dedupKey).Nodup ∧
    ((displayRows sampleDf 3).filter hasNew).find?
      (fun x => dedupKey x == dedupKey sampleOut) = some sampleOut :=
  ⟨(output_dedup_first_wins sampleDf 3).1,
   (output_dedup_first_wins sampleDf 3).2.2.2 sampleOut (by decide)⟩

/-- A record whose date parses to the cutoff day 3 with a 10:00 time-of-day
component (36000 seconds past midnight). -/
def rCutoffMorning : Record :=
  ⟨some ⟨3, 36000⟩, "FB", "src", "Camp One", "C1", "AS1", "A1", 7⟩

/-- A record whose date parses to the cutoff day 3 at midnight (a date-only
value equal to the cutoff). -/
def rCutoffMidnight : Record :=
  ⟨some ⟨3, 0⟩, "FB", "src", "Camp One", "C1", "AS1", "A1", 7⟩

/-- Counterexample to C3 as stated: the comparison is not date-only.  A
record dated on the cutoff day (day 3) with a 10:00 time-of-day is placed in
the recent partition, not the historical one, because the code compares the
full parsed timestamp against the cutoff at midnight without normalising the
time away. -/
theorem partition_not_date_only :
    rCutoffMorning.date = some ⟨3, 36000⟩ ∧
    beforeDf [rCutoffMorning] 3 = [] ∧
    afterDf [rCutoffMorning] 3 = [rCutoffMorning] := by decide

/-- C3 amended: a record whose date parses to timestamp ts is historical iff
ts ≤ cutoff-at-midnight and recent iff ts > cutoff-at-midnight (full
timestamp comparison, the time-of-day not ignored); it lies in exactly one
partition, and a record parsing to exactly the cutoff date at midnight is
historical, never recent. -/
theorem partition_timestamp_boundary (df : List Record) (cutoff : Int)
    (r : Record) (ts : Timestamp) (hts : r.date = some ts) :
    (r ∈ beforeDf df cutoff ↔ r ∈ df ∧ ts.leB (cutoffTs cutoff) = true) ∧
    (r ∈ afterDf df cutoff ↔ r ∈ df ∧ ts.leB (cutoffTs cutoff) = false) ∧
    (r ∈ df → (r ∈ beforeDf df cutoff ↔ r ∉ afterDf df cutoff)) ∧
    (ts = cutoffTs cutoff → r ∈ df →
      r ∈ beforeDf df cutoff ∧ r ∉ afterDf df cutoff) := by
  have hb : r ∈ beforeDf df cutoff ↔ r ∈ df ∧ ts.leB (cutoffTs cutoff) = true := by
    simp [beforeDf, dropnaDate, isBefore, List.mem_filter, List.filter_filter, hts]
  have ha : r ∈ afterDf df cutoff ↔ r ∈ df ∧ ts.leB (cutoffTs cutoff) = false := by
    simp [afterDf, dropnaDate, isAfter, List.mem_filter, List.filter_filter, hts]
  refine ⟨hb, ha, ?_, ?_⟩
  · intro hdf
    rw [hb, ha]
    cases h : ts.leB (cutoffTs cutoff) <;> simp [hdf]
  · intro hteq hdf
    have hle : ts.leB (cutoffTs cutoff) = true := by
      subst hteq; simp [Timestamp.leB]
    exact ⟨hb.mpr ⟨hdf, hle⟩, fun hmem => by simp [hle] at ha; exact ha hmem⟩

/-- Witness for the amended C3: a record dated exactly at the cutoff
(midnight, i.e. with no time-of-day) is historical and not recent. -/
theorem partition_timestamp_boundary_witness :
    rCutoffMidnight ∈ beforeDf [rCutoffMidnight] 3 ∧
    rCutoffMidnight ∉ afterDf [rCutoffMidnight] 3 :=
  (partition_timestamp_boundary [rCutoffMidnight] 3 rCutoffMidnight ⟨3, 0⟩
    rfl).2.2.2 rfl (by decide)

/-- C5: in the annotation of a recent record, the campaign key is
channel ++ "_" ++ campaign_name_short, the ad-set key is the ad_set string
as-is, the ad key is ad_name_short; each status is "New" exactly when its
key is in the corresponding novelty set and "Existing" otherwise; and the
three statuses are computed independently: each depends only on its own key
fields.  The first conjunct ties this annotation to the pipeline's
display rows. -/
theorem status_annotation_contract (df : List Record) (cutoff : Int) :
    displayRows df cutoff = (afterDf df cutoff).map
      (mkDisplayRow (newCampaigns df cutoff) (newAdsets df cutoff) (newAds df cutoff)) ∧
    (∀ r : Record,
      ((mkDisplayRow (newCampaigns df cutoff) (newAdsets df cutoff) (newAds df cutoff)
          r).campaignStatus = "New" ↔
        (r.channel ++ "_" ++ r.campaignNameShort) ∈ newCampaigns df cutoff) ∧
      ((mkDisplayRow (newCampaigns df cutoff) (newAdsets df cutoff) (newAds df cutoff)
          r).campaignStatus = "Existing" ↔
        (r.channel ++ "_" ++ r.campaignNameShort) ∉ newCampaigns df cutoff) ∧
      ((mkDisplayRow (newCampaigns df cutoff) (newAdsets df cutoff) (newAds df cutoff)
          r).adSetStatus = "New" ↔ r.adSet ∈ newAdsets df cutoff) ∧
      ((mkDisplayRow (newCampaigns df cutoff) (newAdsets df cutoff) (newAds df cutoff)
          r).adSetStatus = "Existing" ↔ r.adSet ∉ newAdsets df cutoff) ∧
      ((mkDisplayRow (newCampaigns df cutoff) (newAdsets df cutoff) (newAds df cutoff)
          r).adStatus = "New" ↔ r.adNameShort ∈ newAds df cutoff) ∧
      ((mkDisplayRow (newCampaigns df cutoff) (newAdsets df cutoff) (newAds df cutoff)
          r).adStatus = "Existing" ↔ r.adNameShort ∉ newAds df cutoff)) ∧
    (∀ r r' : Record, r.channel = r'.channel → r.campaignNameShort = r'.campaignNameShort →
      (mkDisplayRow (newCampaigns df cutoff) (newAdsets df cutoff) (newAds df cutoff)
          r).campaignStatus =
        (mkDisplayRow (newCampaigns df cutoff) (newAdsets df cutoff) (newAds df cutoff)
          r').campaignStatus) ∧
    (∀ r r' : Record, r.adSet = r'.adSet →
      (mkDisplayRow (newCampaigns df cutoff) (newAdsets df cutoff) (newAds df cutoff)
          r).adSetStatus =
        (mkDisplayRow (newCampaigns df cutoff) (newAdsets df cutoff) (newAds df cutoff)
          r').adSetStatus) ∧
    (∀ r r' : Record, r.adNameShort = r'.adNameShort →
      (mkDisplayRow (newCampaigns df cutoff) (newAdsets df cutoff) (newAds df cutoff)
          r).adStatus =
        (mkDisplayRow (newCampaigns df cutoff) (newAdsets df cutoff) (newAds df cutoff)
          r').adStatus) := by
  refine ⟨rfl, ?_, ?_, ?_, ?_⟩
  · intro r
    refine ⟨?_, ?_, ?_, ?_, ?_, ?_⟩ <;> simp [mkDisplayRow, campaignKey]
  · intro r r' h1 h2; simp [mkDisplayRow, campaignKey, h1, h2]
  · intro r r' h1; simp [mkDisplayRow, h1]
  · intro r r' h1; simp [mkDisplayRow, h1]

/-- Witness for C5: the recent sample record's statuses computed by the
annotation at the sample dataset and cutoff 3. -/
theorem status_annotation_contract_witness :
    (mkDisplayRow (newCampaigns sampleDf 3) (newAdsets sampleDf 3) (newAds sampleDf 3)
        rNew).campaignStatus = "New" ↔
      (rNew.channel ++ "_" ++ rNew.campaignNameShort) ∈ newCampaigns sampleDf 3 :=
  ((status_annotation_contract sampleDf 3).2.1 rNew).1

/-- C8: the classifier is deterministic — two invocations on identical
tables and identical cutoffs yield identical results. -/
theorem classifier_deterministic (t t' : Table) (c c' : Int)
    (hcols : t.columns = t'.columns) (hrows : t.rows = t'.rows) (hc : c = c') :
    processFile t c = processFile t' c' := by
  cases t; cases t'
  cases hcols; cases hrows; cases hc
  rfl

/-- Witness for C8: determinism at the sample table and cutoff 3. -/
theorem classifier_deterministic_witness :
    processFile ⟨requiredColumns, sampleDf⟩ 3 = processFile ⟨requiredColumns, sampleDf⟩ 3 :=
  classifier_deterministic ⟨requiredColumns, sampleDf⟩ ⟨requiredColumns, sampleDf⟩ 3 3
    rfl rfl rfl

/-- C9: two recent records agreeing on channel, campaign_name_short, ad_set
and ad_name_short receive identical status triples; hence two annotated rows
with the same deduplication combination always agree on all three statuses,
so deduplication never discards a row whose statuses differ from its
retained representative's. -/
theorem equal_keys_equal_statuses (df : List Record) (cutoff : Int) :
    (∀ r r' : Record, r.channel = r'.channel → r.campaignNameShort = r'.campaignNameShort →
      r.adSet = r'.adSet → r.adNameShort = r'.adNameShort →
      (mkDisplayRow (newCampaigns df cutoff) (newAdsets df cutoff) (newAds df cutoff)
          r).campaignStatus =
        (mkDisplayRow (newCampaigns df cutoff) (newAdsets df cutoff) (newAds df cutoff)
          r').campaignStatus ∧
      (mkDisplayRow (newCampaigns df cutoff) (newAdsets df cutoff) (newAds df cutoff)
          r).adSetStatus =
        (mkDisplayRow (newCampaigns df cutoff) (newAdsets df cutoff) (newAds df cutoff)
          r').adSetStatus ∧
      (mkDisplayRow (newCampaigns df cutoff) (newAdsets df cutoff) (newAds df cutoff)
          r).adStatus =
        (mkDisplayRow (newCampaigns df cutoff) (newAdsets df cutoff) (newAds df cutoff)
          r').adStatus) ∧
    (∀ o ∈ displayRows df cutoff, ∀ o' ∈ displayRows df cutoff,
      dedupKey o = dedupKey o' →
      o.campaignStatus = o'.campaignStatus ∧ o.adSetStatus = o'.adSetStatus ∧
      o.adStatus = o'.adStatus) := by
  have h1 : ∀ r r' : Record, r.channel = r'.channel →
      r.campaignNameShort = r'.campaignNameShort → r.adSet = r'.adSet →
      r.adNameShort = r'.adNameShort →
      (mkDisplayRow (newCampaigns df cutoff) (newAdsets df cutoff) (newAds df cutoff)
          r).campaignStatus =
        (mkDisplayRow (newCampaigns df cutoff) (newAdsets df cutoff) (newAds df cutoff)
          r').campaignStatus ∧
      (mkDisplayRow (newCampaigns df cutoff) (newAdsets df cutoff) (newAds df cutoff)
          r).adSetStatus =
        (mkDisplayRow (newCampaigns df cutoff) (newAdsets df cutoff) (newAds df cutoff)
          r').adSetStatus ∧
      (mkDisplayRow (newCampaigns df cutoff) (newAdsets df cutoff) (newAds df cutoff)
          r).adStatus =
        (mkDisplayRow (newCampaigns df cutoff) (newAdsets df cutoff) (newAds df cutoff)
          r').adStatus := by
    intro r r' e1 e2 e3 e4
    refine ⟨?_, ?_, ?_⟩ <;> simp [mkDisplayRow, campaignKey, e1, e2, e3, e4]
  refine ⟨h1, ?_⟩
  intro o ho o' ho' hkey
  obtain ⟨r, _, rfl⟩ := List.mem_map.mp ho
  obtain ⟨r', _, rfl⟩ := List.mem_map.mp ho'
  have e : (r.channel, r.campaignNameShort, r.adSet, r.adNameShort) =
      (r'.channel, r'.campaignNameShort, r'.adSet, r'.adNameShort) := hkey
  simp only [Prod.mk.injEq] at e
  exact h1 r r' e.1 e.2.1 e.2.2.1 e.2.2.2

/-- Witness for C9: two sample records sharing all four key fields (the
recent record and a copy with a different cost) get equal status triples. -/
theorem equal_keys_equal_statuses_witness :
    (mkDisplayRow (newCampaigns sampleDf 3) (newAdsets sampleDf 3) (newAds sampleDf 3)
        rNew).campaignStatus =
      (mkDisplayRow (newCampaigns sampleDf 3) (newAdsets sampleDf 3) (newAds sampleDf 3)
        ⟨some ⟨6, 0⟩, "FB", "other", "Camp Two B", "C2", "AS2", "A2", 99⟩).campaignStatus ∧
    (mkDisplayRow (newCampaigns sampleDf 3) (newAdsets sampleDf 3) (newAds sampleDf 3)
        rNew).adSetStatus =
      (mkDisplayRow (newCampaigns sampleDf 3) (newAdsets sampleDf 3) (newAds sampleDf 3)
        ⟨some ⟨6, 0⟩, "FB", "other", "Camp Two B", "C2", "AS2", "A2", 99⟩).adSetStatus ∧
    (mkDisplayRow (newCampaigns sampleDf 3) (newAdsets sampleDf 3) (newAds sampleDf 3)
        rNew).adStatus =
      (mkDisplayRow (newCampaigns sampleDf 3) (newAdsets sampleDf 3) (newAds sampleDf 3)
        ⟨some ⟨6, 0⟩, "FB", "other", "Camp Two B", "C2", "AS2", "A2", 99⟩).adStatus :=
  (equal_keys_equal_statuses sampleDf 3).1 rNew
    ⟨some ⟨6, 0⟩, "FB", "other", "Camp Two B", "C2", "AS2", "A2", 99⟩
    (by decide) (by decide) (by decide) (by decide)

/-- A table missing the Date column (and most others). -/
def badTable : Table := ⟨["Channel", "Cost (USD)"], sampleDf⟩

/-- C6: when any required column is missing, classification does not run: a
single schema error is reported whose column list contains every missing
required column, and no output result is produced. -/
theorem missing_columns_abort (t : Table) (cutoff : Int)
    (h : ¬ ∀ c ∈ requiredColumns, c ∈ t.columns) :
    processFile t cutoff = ProcessResult.schemaError requiredColumns ∧
    (∀ c ∈ requiredColumns, c ∉ t.columns → c ∈ requiredColumns) ∧
    (∀ w out, processFile t cutoff ≠ ProcessResult.ok w out) := by
  have hall : (requiredColumns.all fun c => t.columns.contains c) = false := by
    rw [← Bool.not_eq_true, List.all_eq_true]
    intro hcontra
    exact h (fun c hc => by simpa using hcontra c hc)
  have hres : processFile t cutoff = ProcessResult.schemaError requiredColumns := by
    simp only [processFile]
    rw [hall]
    simp
  exact ⟨hres, fun c hc _ => hc, fun w out hcontra => by rw [hres] at hcontra; cases hcontra⟩

/-- Witness for C6: a table without a Date column yields the schema error
and no output. -/
theorem missing_columns_abort_witness :
    processFile badTable 3 = ProcessResult.schemaError requiredColumns ∧
    (∀ c ∈ requiredColumns, c ∉ badTable.columns → c ∈ requiredColumns) ∧
    (∀ w out, processFile badTable 3 ≠ ProcessResult.ok w out) :=
  missing_columns_abort badTable 3 (by decide)

/-- Dropping unparseable-date rows is idempotent. -/
theorem dropnaDate_idem (df : List Record) :
    dropnaDate (dropnaDate df) = dropnaDate df := by
  simp [dropnaDate, List.filter_filter]

/-- The historical partition ignores rows whose date did not parse. -/
theorem beforeDf_dropna (df : List Record) (cutoff : Int) :
    beforeDf (dropnaDate df) cutoff = beforeDf df cutoff := by
  simp [beforeDf, dropnaDate_idem]

/-- The recent partition ignores rows whose date did not parse. -/
theorem afterDf_dropna (df : List Record) (cutoff : Int) :
    afterDf (dropnaDate df) cutoff = afterDf df cutoff := by
  simp [afterDf, dropnaDate_idem]

/-- A record with an unparseable date, for the C7 witness. -/
def rBadDate : Record := ⟨none, "FB", "src", "Camp One", "C1", "AS1", "A1", 3⟩

/-- A well-formed table containing one unparseable-date row. -/
def mixedTable : Table := ⟨requiredColumns, [rBadDate, rHist, rNew]⟩

/-- C7: rows whose date does not parse land in neither partition, influence
no novelty set, and never appear in the output; the warning is raised
exactly once per invocation when at least one date fails to parse, however
many rows are affected, and not at all when every date parses. -/
theorem bad_dates_excluded_single_warning (t : Table) (cutoff : Int)
    (hcols : ∀ c ∈ requiredColumns, c ∈ t.columns) :
    (∀ r ∈ t.rows, r.date = none →
      r ∉ beforeDf t.rows cutoff ∧ r ∉ afterDf t.rows cutoff) ∧
    (newCampaigns (dropnaDate t.rows) cutoff = newCampaigns t.rows cutoff ∧
     newAdsets (dropnaDate t.rows) cutoff = newAdsets t.rows cutoff ∧
     newAds (dropnaDate t.rows) cutoff = newAds t.rows cutoff) ∧
    (∀ o ∈ classify t.rows cutoff, ∃ r ∈ t.rows, r.date ≠ none ∧
      o = mkDisplayRow (newCampaigns t.rows cutoff) (newAdsets t.rows cutoff)
            (newAds t.rows cutoff) r) ∧
    ((∃ r ∈ t.rows, r.date = none) →
      processFile t cutoff = ProcessResult.ok 1 (classify t.rows cutoff)) ∧
    ((∀ r ∈ t.rows, r.date ≠ none) →
      processFile t cutoff = ProcessResult.ok 0 (classify t.rows cutoff)) := by
  have hall : (requiredColumns.all fun c => t.columns.contains c) = true := by
    rw [List.all_eq_true]
    intro c hc
    simpa using hcols c hc
  refine ⟨?_, ⟨?_, ?_, ?_⟩, ?_, ?_, ?_⟩
  · intro r _ hnone
    constructor <;>
    · intro hmem
      have := (List.mem_filter.mp (List.mem_filter.mp hmem).1).2
      simp [hnone] at this
  · simp [newCampaigns, beforeDf_dropna, afterDf_dropna]
  · simp [newAdsets, beforeDf_dropna, afterDf_dropna]
  · simp [newAds, beforeDf_dropna, afterDf_dropna]
  · intro o ho
    have hmem := (List.mem_filter.mp (mem_of_mem_dropDuplicates ho)).1
    obtain ⟨r, hr, rfl⟩ := List.mem_map.mp hmem
    have h1 := List.mem_filter.mp hr
    have h2 := List.mem_filter.mp h1.1
    refine ⟨r, h2.1, ?_, rfl⟩
    intro hnone
    simp [hnone] at h2
  · intro ⟨r, hr, hnone⟩
    have hany : (t.rows.any fun r => r.date.isNone) = true :=
      List.any_eq_true.mpr ⟨r, hr, by simp [hnone]⟩
    simp only [processFile]
    rw [hall, hany]
    simp
  · intro hparse
    have hany : (t.rows.any fun r => r.date.isNone) = false := by
      rw [← Bool.not_eq_true, List.any_eq_true]
      rintro ⟨r, hr, hisnone⟩
      exact hparse r hr (by simpa using hisnone)
    simp only [processFile]
    rw [hall, hany]
    simp

/-- Witness for C7: on a table with one bad-date row, that row is in
neither partition and the invocation warns exactly once. -/
theorem bad_dates_excluded_single_warning_witness :
    (rBadDate ∉ beforeDf mixedTable.rows 3 ∧ rBadDate ∉ afterDf mixedTable.rows 3) ∧
    processFile mixedTable 3 = ProcessResult.ok 1 (classify mixedTable.rows 3) :=
  ⟨(bad_dates_excluded_single_warning mixedTable 3 (by decide)).1 rBadDate
      (by decide) rfl,
   (bad_dates_excluded_single_warning mixedTable 3 (by decide)).2.2.2.1
      ⟨rBadDate, by decide, rfl⟩⟩

/-- Set a record's cost to 0, keeping every other column: two datasets are
"identical except in the Cost (USD) column" iff their `eraseCost` images are
equal. -/
def eraseCost (r : Record) : Record :=
  { r with cost := 0 }

/-- Set an output row's cost to 0, keeping every other column. -/
def eraseCostO (o : OutRow) : OutRow :=
  { o with cost := 0 }

/-- Dropping bad dates commutes with erasing costs. -/
theorem dropnaDate_eraseCost (df : List Record) :
    dropnaDate (df.map eraseCost) = (dropnaDate df).map eraseCost := by
  rw [dropnaDate, List.filter_map]
  rfl

/-- The historical partition does not depend on costs. -/
theorem beforeDf_eraseCost (df : List Record) (cutoff : Int) :
    beforeDf (df.map eraseCost) cutoff = (beforeDf df cutoff).map eraseCost := by
  rw [beforeDf, dropnaDate_eraseCost, List.filter_map]
  rfl

/-- The recent partition does not depend on costs. -/
theorem afterDf_eraseCost (df : List Record) (cutoff : Int) :
    afterDf (df.map eraseCost) cutoff = (afterDf df cutoff).map eraseCost := by
  rw [afterDf, dropnaDate_eraseCost, List.filter_map]
  rfl

/-- Campaign keys do not depend on costs. -/
theorem campaignKeys_eraseCost (l : List Record) :
    campaignKeys (l.map eraseCost) = campaignKeys l := by
  rw [campaignKeys, List.map_map]
  rfl

/-- Ad-set keys do not depend on costs. -/
theorem adSetKeys_eraseCost (l : List Record) :
    adSetKeys (l.map eraseCost) = adSetKeys l := by
  rw [adSetKeys, List.map_map]
  rfl

/-- Ad keys do not depend on costs. -/
theorem adKeys_eraseCost (l : List Record) :
    adKeys (l.map eraseCost) = adKeys l := by
  rw [adKeys, List.map_map]
  rfl

/-- The campaign novelty set does not depend on costs. -/
theorem newCampaigns_eraseCost (df : List Record) (cutoff : Int) :
    newCampaigns (df.map eraseCost) cutoff = newCampaigns df cutoff := by
  rw [newCampaigns, newCampaigns, beforeDf_eraseCost, afterDf_eraseCost,
    campaignKeys_eraseCost, campaignKeys_eraseCost]

/-- The ad-set novelty set does not depend on costs. -/
theorem newAdsets_eraseCost (df : List Record) (cutoff : Int) :
    newAdsets (df.map eraseCost) cutoff = newAdsets df cutoff := by
  rw [newAdsets, newAdsets, beforeDf_eraseCost, afterDf_eraseCost,
    adSetKeys_eraseCost, adSetKeys_eraseCost]

/-- The ad novelty set does not depend on costs. -/
theorem newAds_eraseCost (df : List Record) (cutoff : Int) :
    newAds (df.map eraseCost) cutoff = newAds df cutoff := by
  rw [newAds, newAds, beforeDf_eraseCost, afterDf_eraseCost,
    adKeys_eraseCost, adKeys_eraseCost]

/-- Annotating a cost-erased dataset gives the cost-erased annotated rows. -/
theorem displayRows_eraseCost (df : List Record) (cutoff : Int) :
    displayRows (df.map eraseCost) cutoff = (displayRows df cutoff).map eraseCostO := by
  rw [displayRows, displayRows, afterDf_eraseCost, newCampaigns_eraseCost,
    newAdsets_eraseCost, newAds_eraseCost, List.map_map, List.map_map]
  rfl

/-- The at-least-one-New filter does not depend on costs. -/
theorem filter_hasNew_eraseCost (l : List OutRow) :
    (l.map eraseCostO).filter hasNew = (l.filter hasNew).map eraseCostO := by
  rw [List.filter_map]
  rfl

/-- Deduplication commutes with erasing costs (its key ignores the cost). -/
theorem dropDupAux_eraseCost (seen : List (String × String × String × String)) :
    ∀ l : List OutRow,
      dropDupAux seen (l.map eraseCostO) = (dropDupAux seen l).map eraseCostO := by
  intro l
  induction l generalizing seen with
  | nil => rfl
  | cons a as ih =>
    show dropDupAux seen (eraseCostO a :: as.map eraseCostO) = _
    simp only [dropDupAux]
    have hk : dedupKey (eraseCostO a) = dedupKey a := rfl
    rw [hk]
    by_cases h : seen.contains (dedupKey a) = true
    · rw [if_pos h, if_pos h, ih]
    · rw [if_neg h, if_neg h, List.map_cons, ih]

/-- The whole pipeline on a cost-erased dataset yields the cost-erased
output. -/
theorem classify_eraseCost (df : List Record) (cutoff : Int) :
    classify (df.map eraseCost) cutoff = (classify df cutoff).map eraseCostO := by
  rw [classify, classify, displayRows_eraseCost, filter_hasNew_eraseCost,
    dropDuplicates, dropDuplicates, dropDupAux_eraseCost]

/-- A copy of the sample dataset with different costs only. -/
def sampleDfOtherCost : List Record :=
  [⟨some ⟨0, 0⟩, "FB", "src", "Camp One", "C1", "AS1", "A1", 1000⟩,
   ⟨some ⟨5, 0⟩, "FB", "src", "Camp Two", "C2", "AS2", "A2", 2000⟩]

/-- C10: statuses and row retention do not depend on cost.  Two datasets
identical except in the Cost (USD) column produce outputs with the same
rows in the same order agreeing on every column except cost; in particular
the novelty sets, the retained deduplicated combinations and every row's
status triple coincide. -/
theorem cost_noninterference (df df' : List Record) (cutoff : Int)
    (h : df.map eraseCost = df'.map eraseCost) :
    (classify df cutoff).map eraseCostO = (classify df' cutoff).map eraseCostO ∧
    (classify df cutoff).length = (classify df' cutoff).length ∧
    newCampaigns df cutoff = newCampaigns df' cutoff ∧
    newAdsets df cutoff = newAdsets df' cutoff ∧
    newAds df cutoff = newAds df' cutoff ∧
    (classify df cutoff).map dedupKey = (classify df' cutoff).map dedupKey ∧
    (classify df cutoff).map (fun o => (o.campaignStatus, o.adSetStatus, o.adStatus)) =
      (classify df' cutoff).map (fun o => (o.campaignStatus, o.adSetStatus, o.adStatus)) := by
  have hmain : (classify df cutoff).map eraseCostO =
      (classify df' cutoff).map eraseCostO := by
    rw [← classify_eraseCost, ← classify_eraseCost, h]
  have hlen : (classify df cutoff).length = (classify df' cutoff).length := by
    have := congrArg List.length hmain
    simpa using this
  have hkeys : (classify df cutoff).map dedupKey =
      (classify df' cutoff).map dedupKey := by
    have h1 : ∀ l : List OutRow, l.map dedupKey = (l.map eraseCostO).map dedupKey := by
      intro l
      rw [List.map_map]
      rfl
    rw [h1, hmain, ← h1]
  have hstat : (classify df cutoff).map
        (fun o => (o.campaignStatus, o.adSetStatus, o.adStatus)) =
      (classify df' cutoff).map
        (fun o => (o.campaignStatus, o.adSetStatus, o.adStatus)) := by
    have h1 : ∀ l : List OutRow,
        l.map (fun o => (o.campaignStatus, o.adSetStatus, o.adStatus)) =
          (l.map eraseCostO).map
            (fun o => (o.campaignStatus, o.adSetStatus, o.adStatus)) := by
      intro l
      rw [List.map_map]
      rfl
    rw [h1, hmain, ← h1]
  refine ⟨hmain, hlen, ?_, ?_, ?_, hkeys, hstat⟩
  · rw [← newCampaigns_eraseCost df, ← newCampaigns_eraseCost df', h]
  · rw [← newAdsets_eraseCost df, ← newAdsets_eraseCost df', h]
  · rw [← newAds_eraseCost df, ← newAds_eraseCost df', h]

/-- Witness for C10: the sample dataset and its different-cost copy give
outputs equal on every column except cost. -/
theorem cost_noninterference_witness :
    (classify sampleDf 3).map eraseCostO =
      (classify sampleDfOtherCost 3).map eraseCostO :=
  (cost_noninterference sampleDf sampleDfOtherCost 3 (by decide)).1

end NoveltyClassifier
